import Mathlib

/-!
Verification of the messaging-api service core: contact-message submission
(honeypot spam suppression, persistence, event publication) and recipient
CRUD (partial-update merge), as implemented in
internal/handlers/contact_message.go, internal/handlers/recipient.go and
internal/repository/contact_message.go, internal/repository (recipients).

The repository and publisher are opaque collaborators; handlers are embedded
as pure functions from the request plus the collaborators' behaviour (given
as oracle functions) to a response paired with the trace of collaborator
calls made during the request.
-/

namespace MessagingApi

/-- Modelled from the spec: the message status enumeration lives in the
external portfolio-common/models package (not part of this repository's
sources); the spec fixes the enumeration to pending, sent, failed. -/
def MessageStatusPending : String := "pending"

/-- Modelled from the spec: see MessageStatusPending. -/
def MessageStatusSent : String := "sent"

/-- Modelled from the spec: see MessageStatusPending. -/
def MessageStatusFailed : String := "failed"

/-- The persisted contact message entity (models.ContactMessage).
Store-managed created/updated timestamps are omitted; the sent timestamp is
modelled as an optional clock value. -/
structure ContactMessage where
  id : Int
  name : String
  email : String
  subject : String
  message : String
  status : String
  lastError : Option String
  attempts : Nat
  sentAt : Option Nat
deriving Repr, DecidableEq

/-- The contact-form submission payload (models.ContactMessageCreate).
The honeypot field (JSON name "website") is optional: none models an absent
field, some s a present field with value s. -/
structure ContactMessageCreate where
  name : String
  email : String
  subject : String
  message : String
  website : Option String
deriving Repr, DecidableEq

/-- Modelled from the spec: models.ContactMessageCreate.IsSpam lives in the
external portfolio-common/models package. Per the spec, a submission is spam
exactly when the honeypot field is present and non-empty. -/
def ContactMessageCreate.IsSpam (req : ContactMessageCreate) : Bool :=
  match req.website with
  | none => false
  | some w => !(w == "")

/-- The notification event published after a successful persistence
(models.ContactMessageEvent). -/
structure ContactMessageEvent where
  messageID : Int
deriving Repr, DecidableEq

/-- The recipient entity (models.Recipient). Store-managed timestamps are
omitted. -/
structure Recipient where
  id : Int
  email : String
  name : String
  isActive : Bool
deriving Repr, DecidableEq

/-- The recipient creation payload (models.RecipientCreate); isActive is an
optional boolean. -/
structure RecipientCreate where
  email : String
  name : String
  isActive : Option Bool
deriving Repr, DecidableEq

/-- The recipient partial-update payload (models.RecipientUpdate): every
field is optional, none meaning absent from the JSON body. -/
structure RecipientUpdate where
  email : Option String
  name : Option String
  isActive : Option Bool
deriving Repr, DecidableEq

/-- Splits a character list at every occurrence of a separator character,
used to model email-shape checking structurally. -/
def splitOnChar (sep : Char) : List Char → List (List Char)
  | [] => [[]]
  | c :: cs =>
    let rest := splitOnChar sep cs
    if c == sep then
      [] :: rest
    else
      match rest with
      | [] => [[c]]
      | h :: t => (c :: h) :: t

/-- Modelled from the spec: the email-syntax validator is a binding tag in the
external portfolio-common/models package. The spec requires a syntactically
valid email address; modelled as one @ separating a non-empty local part from
a non-empty domain containing a dot. -/
def validEmail (s : String) : Bool :=
  match splitOnChar '@' s.data with
  | [localPart, domain] =>
    !localPart.isEmpty && !domain.isEmpty && domain.contains '.'
  | _ => false

/-- Modelled from the spec: field validation of the contact submission is via
binding tags in the external portfolio-common/models package. The spec fixes
name 1 to 255 characters, valid email, subject 1 to 500, message 1 to 10000,
with inclusive bounds. -/
def validateContactMessageCreate (req : ContactMessageCreate) : Bool :=
  decide (1 ≤ req.name.length) && decide (req.name.length ≤ 255) &&
  validEmail req.email &&
  decide (1 ≤ req.subject.length) && decide (req.subject.length ≤ 500) &&
  decide (1 ≤ req.message.length) && decide (req.message.length ≤ 10000)

/-- Modelled from the spec: validation of the recipient creation payload is
via binding tags in the external portfolio-common/models package. The spec
requires a valid email and a required name of 1 to 255 characters. -/
def validateRecipientCreate (req : RecipientCreate) : Bool :=
  validEmail req.email &&
  decide (1 ≤ req.name.length) && decide (req.name.length ≤ 255)

/-- Modelled from the spec: validation of the recipient update payload is via
binding tags in the external portfolio-common/models package. Fields are
optional; a present field must satisfy the create-time constraint (in
particular a present empty email fails validation). -/
def validateRecipientUpdate (req : RecipientUpdate) : Bool :=
  (match req.email with
   | none => true
   | some e => validEmail e) &&
  (match req.name with
   | none => true
   | some n => decide (1 ≤ n.length) && decide (n.length ≤ 255))

/-- Embedding of Go strconv.ParseInt(s, 10, 64) as used by the handlers for
path identifiers: an optional sign, then one or more decimal digits, with the
value required to fit in a signed 64-bit integer; anything else is an error
(none). -/
def ParseInt64 (s : String) : Option Int :=
  let p : Bool × List Char :=
    match s.data with
    | '+' :: rest => (false, rest)
    | '-' :: rest => (true, rest)
    | rest => (false, rest)
  let neg := p.1
  let ds := p.2
  if ds.isEmpty then
    none
  else if ds.all (fun c => c.isDigit) then
    let n : Nat := ds.foldl (fun a c => a * 10 + (c.toNat - 48)) 0
    let v : Int := if neg then -(n : Int) else (n : Int)
    if -(2 ^ 63) ≤ v ∧ v ≤ 2 ^ 63 - 1 then some v else none
  else
    none

/-- One repository call, as observed by the handler's trace. -/
inductive RepoCall where
  | createContactMessage (message : ContactMessage)
  | getContactMessages
  | getContactMessageByID (id : Int)
  | getAllRecipients
  | getRecipientByID (id : Int)
  | createRecipient (recipient : Recipient)
  | updateRecipient (recipient : Recipient)
  | deleteRecipient (id : Int)
deriving Repr, DecidableEq

/-- The externally observable side effects of one handler invocation: the
repository calls made, the queue publishes attempted (by event message id),
and the error log lines emitted. -/
structure Effects where
  repoCalls : List RepoCall
  published : List Int
  logs : List String
deriving Repr, DecidableEq

/-- No side effects. -/
def Effects.empty : Effects :=
  { repoCalls := [], published := [], logs := [] }

/-- Outcome of a repository create call: the store assigns an id on success
(written back into the passed record in the Go code). -/
inductive CreateResult where
  | ok (assignedId : Int)
  | err
deriving Repr, DecidableEq

/-- Outcome of the publisher's Publish call. -/
inductive PublishResult where
  | ok
  | err
deriving Repr, DecidableEq

/-- Outcome of a repository get-by-id call; notFound models
gorm.ErrRecordNotFound, which HandleRepositoryError maps to 404. -/
inductive GetRecipientResult where
  | found (r : Recipient)
  | notFound
  | dbErr
deriving Repr, DecidableEq

/-- Outcome of the contact-message get-by-id repository call. -/
inductive GetMessageResult where
  | found (m : ContactMessage)
  | notFound
  | dbErr
deriving Repr, DecidableEq

/-- Outcome of a repository update call. -/
inductive UpdateResult where
  | ok
  | err
deriving Repr, DecidableEq

/-- Outcome of a repository delete call; notFound models zero rows affected. -/
inductive DeleteResult where
  | ok
  | notFound
  | dbErr
deriving Repr, DecidableEq

/-- Response of the contact submission handler: created carries the JSON
acknowledgment body, badRequest the 400 on bind or validation failure,
internalError the 500 on persistence failure. -/
inductive ContactCreateResponse where
  | created (body : String)
  | badRequest
  | internalError
deriving Repr, DecidableEq

/-- Response of a recipient (or message read) handler. -/
inductive RecipientResponse where
  | ok (r : Recipient)
  | created (r : Recipient) (location : Int)
  | badRequest (msg : String)
  | notFound (msg : String)
  | internalError
  | noContent
deriving Repr, DecidableEq

/-- Response of the message read handlers. -/
inductive MessageResponse where
  | ok (m : ContactMessage)
  | badRequest (msg : String)
  | notFound (msg : String)
  | internalError
deriving Repr, DecidableEq

/-- The acknowledgment body returned by the contact submission handler. -/
def thankYouMessage : String := "Thank you for your message"

namespace Handlers

/-- Embedding of Handler.CreateContactMessage
(internal/handlers/contact_message.go): bind and validate the payload, check
the honeypot, persist with status pending, publish the notification event
(failure logged, never propagated), and acknowledge with 201. -/
def CreateContactMessage (repoCreate : ContactMessage → CreateResult)
    (publish : ContactMessageEvent → PublishResult)
    (req : ContactMessageCreate) : ContactCreateResponse × Effects :=
  if !validateContactMessageCreate req then
    (.badRequest, Effects.empty)
  else if req.IsSpam then
    (.created thankYouMessage, Effects.empty)
  else
    let message : ContactMessage :=
      { id := 0
        name := req.name
        email := req.email
        subject := req.subject
        message := req.message
        status := MessageStatusPending
        lastError := none
        attempts := 0
        sentAt := none }
    match repoCreate message with
    | .err =>
      (.internalError,
        { repoCalls := [.createContactMessage message]
          published := []
          logs := ["Failed to submit message"] })
    | .ok assignedId =>
      let saved := { message with id := assignedId }
      let event : ContactMessageEvent := { messageID := saved.id }
      let pubLogs : List String :=
        match publish event with
        | .ok => []
        | .err => ["Failed to publish message to queue"]
      (.created thankYouMessage,
        { repoCalls := [.createContactMessage message]
          published := [event.messageID]
          logs := pubLogs })

/-- Embedding of Handler.GetContactMessage
(internal/handlers/contact_message.go): parse the id, fetch, map
record-not-found to 404 and other repository failures to 500. -/
def GetContactMessage (repoGet : Int → GetMessageResult)
    (idStr : String) : MessageResponse × Effects :=
  match ParseInt64 idStr with
  | none => (.badRequest "Invalid ID format", Effects.empty)
  | some id =>
    match repoGet id with
    | .notFound =>
      (.notFound "Message not found",
        { repoCalls := [.getContactMessageByID id], published := [], logs := [] })
    | .dbErr =>
      (.internalError,
        { repoCalls := [.getContactMessageByID id], published := [],
          logs := ["Failed to retrieve message"] })
    | .found m =>
      (.ok m,
        { repoCalls := [.getContactMessageByID id], published := [], logs := [] })

/-- Embedding of Handler.GetRecipient (internal/handlers/recipient.go). -/
def GetRecipient (repoGet : Int → GetRecipientResult)
    (idStr : String) : RecipientResponse × Effects :=
  match ParseInt64 idStr with
  | none => (.badRequest "Invalid ID format", Effects.empty)
  | some id =>
    match repoGet id with
    | .notFound =>
      (.notFound "Recipient not found",
        { repoCalls := [.getRecipientByID id], published := [], logs := [] })
    | .dbErr =>
      (.internalError,
        { repoCalls := [.getRecipientByID id], published := [],
          logs := ["Failed to retrieve recipient"] })
    | .found r =>
      (.ok r,
        { repoCalls := [.getRecipientByID id], published := [], logs := [] })

/-- Embedding of Handler.CreateRecipient (internal/handlers/recipient.go):
bind and validate, default isActive to true when absent, persist, respond 201
with the created record and a Location reference to its id. -/
def CreateRecipient (repoCreate : Recipient → CreateResult)
    (req : RecipientCreate) : RecipientResponse × Effects :=
  if !validateRecipientCreate req then
    (.badRequest "validation failed", Effects.empty)
  else
    let base : Recipient :=
      { id := 0, email := req.email, name := req.name, isActive := true }
    let recipient : Recipient :=
      match req.isActive with
      | none => base
      | some v => { base with isActive := v }
    match repoCreate recipient with
    | .err =>
      (.internalError,
        { repoCalls := [.createRecipient recipient], published := [],
          logs := ["Failed to create recipient"] })
    | .ok assignedId =>
      let saved := { recipient with id := assignedId }
      (.created saved saved.id,
        { repoCalls := [.createRecipient recipient], published := [], logs := [] })

/-- Embedding of the field-merge step of Handler.UpdateRecipient
(internal/handlers/recipient.go, lines 133-142): each present payload field
overwrites the fetched record, absent fields leave it untouched. -/
def applyRecipientUpdate (existing : Recipient) (req : RecipientUpdate) : Recipient :=
  let e1 :=
    match req.email with
    | none => existing
    | some v => { existing with email := v }
  let e2 :=
    match req.name with
    | none => e1
    | some v => { e1 with name := v }
  match req.isActive with
  | none => e2
  | some v => { e2 with isActive := v }

/-- Embedding of Handler.UpdateRecipient (internal/handlers/recipient.go):
parse the id, fetch the existing record, then bind and validate the partial
payload (in this order, as in the source), merge present fields, persist the
merged record and return it. -/
def UpdateRecipient (repoGet : Int → GetRecipientResult)
    (repoUpdate : Recipient → UpdateResult)
    (idStr : String) (req : RecipientUpdate) : RecipientResponse × Effects :=
  match ParseInt64 idStr with
  | none => (.badRequest "Invalid ID format", Effects.empty)
  | some id =>
    match repoGet id with
    | .notFound =>
      (.notFound "Recipient not found",
        { repoCalls := [.getRecipientByID id], published := [], logs := [] })
    | .dbErr =>
      (.internalError,
        { repoCalls := [.getRecipientByID id], published := [],
          logs := ["Failed to retrieve recipient"] })
    | .found existing =>
      if !validateRecipientUpdate req then
        (.badRequest "validation failed",
          { repoCalls := [.getRecipientByID id], published := [], logs := [] })
      else
        let merged := applyRecipientUpdate existing req
        match repoUpdate merged with
        | .err =>
          (.internalError,
            { repoCalls := [.getRecipientByID id, .updateRecipient merged],
              published := [], logs := ["Failed to update recipient"] })
        | .ok =>
          (.ok merged,
            { repoCalls := [.getRecipientByID id, .updateRecipient merged],
              published := [], logs := [] })

/-- Embedding of Handler.DeleteRecipient (internal/handlers/recipient.go). -/
def DeleteRecipient (repoDelete : Int → DeleteResult)
    (idStr : String) : RecipientResponse × Effects :=
  match ParseInt64 idStr with
  | none => (.badRequest "Invalid ID format", Effects.empty)
  | some id =>
    match repoDelete id with
    | .notFound =>
      (.notFound "Recipient not found",
        { repoCalls := [.deleteRecipient id], published := [], logs := [] })
    | .dbErr =>
      (.internalError,
        { repoCalls := [.deleteRecipient id], published := [],
          logs := ["Failed to delete recipient"] })
    | .ok =>
      (.noContent,
        { repoCalls := [.deleteRecipient id], published := [], logs := [] })

end Handlers

namespace Repo

/-- Embedding of repository.UpdateContactMessageStatus
(internal/repository/contact_message.go) applied to one stored row: the
updates map sets the status, sets last_error only when a lastError argument
is given, sets sent_at to the current clock exactly when the new status is
sent, and increments attempts exactly when the new status is failed. -/
def UpdateContactMessageStatus (m : ContactMessage) (now : Nat)
    (status : String) (lastError : Option String) : ContactMessage :=
  let m1 := { m with status := status }
  let m2 :=
    match lastError with
    | none => m1
    | some e => { m1 with lastError := some e }
  let m3 := if status = MessageStatusSent then { m2 with sentAt := some now } else m2
  if status = MessageStatusFailed then { m3 with attempts := m3.attempts + 1 } else m3

/-- Ordering of recipients by name, as produced by the SQL ORDER BY name ASC
clause of repository.GetAllRecipients. -/
def nameLe (a b : Recipient) : Prop := a.name ≤ b.name

instance : DecidableRel nameLe :=
  fun a b => inferInstanceAs (Decidable (a.name ≤ b.name))

instance : IsTotal Recipient nameLe :=
  ⟨fun a b => le_total a.name b.name⟩

instance : IsTrans Recipient nameLe :=
  ⟨fun _ _ _ h1 h2 => le_trans h1 h2⟩

/-- Embedding of repository.GetAllRecipients: the db query selects every
stored recipient and orders the result by name ascending (ORDER BY name ASC),
modelled as sorting the stored rows by name. -/
def GetAllRecipients (db : List Recipient) : List Recipient :=
  List.insertionSort nameLe db

end Repo

/-! Concrete collaborator stubs and payloads used by witness theorems. -/

/-- Repository create stub that assigns id 1. -/
def repoCreateOk1 : ContactMessage → CreateResult := fun _ => .ok 1

/-- Publisher stub that succeeds. -/
def pubOk : ContactMessageEvent → PublishResult := fun _ => .ok

/-- Publisher stub that fails. -/
def pubErr : ContactMessageEvent → PublishResult := fun _ => .err

/-- A genuine submission, as in the repository's success test. -/
def genuineReq : ContactMessageCreate :=
  { name := "John Doe", email := "john@example.com", subject := "Test",
    message := "Hello world", website := none }

/-- A spam submission (honeypot filled), as in the repository's spam test. -/
def spamReq : ContactMessageCreate :=
  { name := "Bot", email := "bot@spam.com", subject := "Spam",
    message := "Buy now!", website := some "http://spam.com" }

/-- The stored recipient used by the repository's update tests. -/
def testRecipient : Recipient :=
  { id := 1, email := "admin@example.com", name := "Admin User", isActive := true }

/-- Recipient fetch stub that always finds testRecipient. -/
def repoGetFoundTest : Int → GetRecipientResult := fun _ => .found testRecipient

/-- Recipient update stub that succeeds. -/
def repoUpdateOk : Recipient → UpdateResult := fun _ => .ok

/-- Recipient create stub that assigns id 1. -/
def recipientCreateOk1 : Recipient → CreateResult := fun _ => .ok 1

/-- A stored contact message used by read-path witnesses. -/
def testMessage : ContactMessage :=
  { id := 1, name := "John Doe", email := "john@example.com", subject := "Test",
    message := "Hello world", status := "pending", lastError := none,
    attempts := 0, sentAt := none }

/-- Message fetch stub that always finds testMessage. -/
def repoGetMessageFound : Int → GetMessageResult := fun _ => .found testMessage

/-- Recipient delete stub that succeeds. -/
def repoDeleteOk : Int → DeleteResult := fun _ => .ok

/-- A partial update carrying only an invalid (empty) email. -/
def invalidEmailUpdate : RecipientUpdate :=
  { email := some "", name := none, isActive := none }

/-- A string of n copies of the letter a, for length-boundary witnesses. -/
def aChars (n : Nat) : String := String.mk (List.replicate n 'a')

/-- Length of an aChars string. -/
theorem aChars_length (n : Nat) : (aChars n).length = n := by
  rw [aChars, String.length_mk, List.length_replicate]

/-- The message constructed by the submission handler before persistence:
the payload's fields, status pending, store defaults elsewhere. -/
def pendingMessageOf (req : ContactMessageCreate) : ContactMessage :=
  { id := 0, name := req.name, email := req.email, subject := req.subject,
    message := req.message, status := MessageStatusPending,
    lastError := none, attempts := 0, sentAt := none }

/-- Claim C1: a contact submission whose honeypot field is present and
non-empty (and which, per the §4.2 workflow, has passed §4.1 validation)
triggers no repository create call and no publisher call, yet receives the
201 acknowledgment, identical to the acknowledgment of a genuine successful
submission. -/
theorem contactMessage_spam_suppressed
    (repoCreate : ContactMessage → CreateResult)
    (publish : ContactMessageEvent → PublishResult)
    (req : ContactMessageCreate)
    (hvalid : validateContactMessageCreate req = true)
    (hspam : req.IsSpam = true) :
    Handlers.CreateContactMessage repoCreate publish req =
      (.created thankYouMessage, Effects.empty) ∧
    (∀ (req2 : ContactMessageCreate) (id : Int)
        (publish2 : ContactMessageEvent → PublishResult),
      validateContactMessageCreate req2 = true → req2.IsSpam = false →
      (Handlers.CreateContactMessage (fun _ => .ok id) publish2 req2).1 =
        .created thankYouMessage) := by
  constructor
  · simp [Handlers.CreateContactMessage, hvalid, hspam]
  · intro req2 id publish2 h1 h2
    simp [Handlers.CreateContactMessage, h1, h2]

/-- Witness for C1 at the repository's own spam test input. -/
theorem contactMessage_spam_suppressed_witness :
    validateContactMessageCreate spamReq = true ∧
    spamReq.IsSpam = true ∧
    Handlers.CreateContactMessage repoCreateOk1 pubOk spamReq =
      (.created thankYouMessage, Effects.empty) :=
  ⟨by decide, by decide,
    (contactMessage_spam_suppressed repoCreateOk1 pubOk spamReq
      (by decide) (by decide)).1⟩

/-- Claim C2: a valid, non-spam submission against a store that assigns id
results in exactly one repository create call, whose record has status
pending, and exactly one publish attempt carrying the store-assigned id,
whatever the publisher outcome. -/
theorem contactMessage_genuine_creates_and_publishes_once
    (req : ContactMessageCreate) (id : Int)
    (publish : ContactMessageEvent → PublishResult)
    (hvalid : validateContactMessageCreate req = true)
    (hspam : req.IsSpam = false) :
    (Handlers.CreateContactMessage (fun _ => .ok id) publish req).2.repoCalls =
      [.createContactMessage (pendingMessageOf req)] ∧
    (pendingMessageOf req).status = MessageStatusPending ∧
    (Handlers.CreateContactMessage (fun _ => .ok id) publish req).2.published =
      [id] ∧
    (Handlers.CreateContactMessage (fun _ => .ok id) publish req).1 =
      .created thankYouMessage := by
  refine ⟨?_, rfl, ?_, ?_⟩ <;>
    simp [Handlers.CreateContactMessage, hvalid, hspam, pendingMessageOf]

/-- Witness for C2 at the repository's own success test input. -/
theorem contactMessage_genuine_creates_and_publishes_once_witness :
    validateContactMessageCreate genuineReq = true ∧
    genuineReq.IsSpam = false ∧
    ((Handlers.CreateContactMessage (fun _ => .ok 1) pubOk genuineReq).2.repoCalls =
      [.createContactMessage (pendingMessageOf genuineReq)] ∧
    (pendingMessageOf genuineReq).status = MessageStatusPending ∧
    (Handlers.CreateContactMessage (fun _ => .ok 1) pubOk genuineReq).2.published =
      [1] ∧
    (Handlers.CreateContactMessage (fun _ => .ok 1) pubOk genuineReq).1 =
      .created thankYouMessage) :=
  ⟨by decide, by decide,
    contactMessage_genuine_creates_and_publishes_once genuineReq 1 pubOk
      (by decide) (by decide)⟩

/-- Claim C6: once a valid, non-spam submission persists successfully, the
caller-visible response does not depend on the publisher at all: it equals
the 201 acknowledgment under any two publisher behaviours. -/
theorem publish_failure_not_propagated
    (req : ContactMessageCreate) (id : Int)
    (pub1 pub2 : ContactMessageEvent → PublishResult)
    (hvalid : validateContactMessageCreate req = true)
    (hspam : req.IsSpam = false) :
    (Handlers.CreateContactMessage (fun _ => .ok id) pub1 req).1 =
      (Handlers.CreateContactMessage (fun _ => .ok id) pub2 req).1 ∧
    (Handlers.CreateContactMessage (fun _ => .ok id) pub1 req).1 =
      .created thankYouMessage := by
  refine ⟨?_, ?_⟩ <;> simp [Handlers.CreateContactMessage, hvalid, hspam]

/-- Witness for C6: a failing publisher versus a succeeding one at the
success test input. -/
theorem publish_failure_not_propagated_witness :
    validateContactMessageCreate genuineReq = true ∧
    genuineReq.IsSpam = false ∧
    ((Handlers.CreateContactMessage (fun _ => .ok 1) pubErr genuineReq).1 =
      (Handlers.CreateContactMessage (fun _ => .ok 1) pubOk genuineReq).1 ∧
    (Handlers.CreateContactMessage (fun _ => .ok 1) pubErr genuineReq).1 =
      .created thankYouMessage) :=
  ⟨by decide, by decide,
    publish_failure_not_propagated genuineReq 1 pubErr pubOk
      (by decide) (by decide)⟩

/-- Claim C3: on an update of an existing recipient, each of email, name,
isActive is overwritten exactly when present in the partial payload, absent
fields keep their pre-update values, a name-only payload changes only the
name, and the merged record is what the handler persists and returns. -/
theorem updateRecipient_merge_semantics
    (idStr : String) (id : Int) (existing : Recipient) (req : RecipientUpdate)
    (hid : ParseInt64 idStr = some id)
    (hvalid : validateRecipientUpdate req = true) :
    (Handlers.applyRecipientUpdate existing req).email =
      req.email.getD existing.email ∧
    (Handlers.applyRecipientUpdate existing req).name =
      req.name.getD existing.name ∧
    (Handlers.applyRecipientUpdate existing req).isActive =
      req.isActive.getD existing.isActive ∧
    (Handlers.applyRecipientUpdate existing req).id = existing.id ∧
    (∀ nm : String,
      Handlers.applyRecipientUpdate existing
        { email := none, name := some nm, isActive := none } =
      { existing with name := nm }) ∧
    Handlers.UpdateRecipient (fun _ => .found existing) (fun _ => .ok) idStr req =
      (.ok (Handlers.applyRecipientUpdate existing req),
        { repoCalls := [.getRecipientByID id,
            .updateRecipient (Handlers.applyRecipientUpdate existing req)],
          published := [], logs := [] }) := by
  obtain ⟨oe, onm, oa⟩ := req
  refine ⟨?_, ?_, ?_, ?_, fun nm => rfl, ?_⟩
  · cases oe <;> cases onm <;> cases oa <;> rfl
  · cases oe <;> cases onm <;> cases oa <;> rfl
  · cases oe <;> cases onm <;> cases oa <;> rfl
  · cases oe <;> cases onm <;> cases oa <;> rfl
  · simp [Handlers.UpdateRecipient, hid, hvalid]

/-- Witness for C3: E2E scenario D, a name-only update of the stored admin
recipient. -/
theorem updateRecipient_merge_semantics_witness :
    ParseInt64 "1" = some 1 ∧
    validateRecipientUpdate
      { email := none, name := some "Only Name Updated", isActive := none } = true ∧
    Handlers.UpdateRecipient (fun _ => .found testRecipient) (fun _ => .ok) "1"
      { email := none, name := some "Only Name Updated", isActive := none } =
      (.ok (Handlers.applyRecipientUpdate testRecipient
          { email := none, name := some "Only Name Updated", isActive := none }),
        { repoCalls := [.getRecipientByID 1,
            .updateRecipient (Handlers.applyRecipientUpdate testRecipient
              { email := none, name := some "Only Name Updated", isActive := none })],
          published := [], logs := [] }) :=
  ⟨by decide, by decide,
    (updateRecipient_merge_semantics "1" 1 testRecipient
      { email := none, name := some "Only Name Updated", isActive := none }
      (by decide) (by decide)).2.2.2.2.2⟩

/-- Claim C9: an update of an existing recipient with an empty partial
payload passes validation, persists the fetched record with every field
unchanged, and returns it as a success. -/
theorem updateRecipient_empty_payload_noop
    (idStr : String) (id : Int) (existing : Recipient)
    (hid : ParseInt64 idStr = some id) :
    validateRecipientUpdate { email := none, name := none, isActive := none } =
      true ∧
    Handlers.applyRecipientUpdate existing
      { email := none, name := none, isActive := none } = existing ∧
    Handlers.UpdateRecipient (fun _ => .found existing) (fun _ => .ok) idStr
      { email := none, name := none, isActive := none } =
      (.ok existing,
        { repoCalls := [.getRecipientByID id, .updateRecipient existing],
          published := [], logs := [] }) := by
  refine ⟨rfl, rfl, ?_⟩
  simp [Handlers.UpdateRecipient, hid]
  rfl

/-- Witness for C9: the empty payload applied to the stored admin
recipient. -/
theorem updateRecipient_empty_payload_noop_witness :
    ParseInt64 "1" = some 1 ∧
    (validateRecipientUpdate { email := none, name := none, isActive := none } =
      true ∧
    Handlers.applyRecipientUpdate testRecipient
      { email := none, name := none, isActive := none } = testRecipient ∧
    Handlers.UpdateRecipient (fun _ => .found testRecipient) (fun _ => .ok) "1"
      { email := none, name := none, isActive := none } =
      (.ok testRecipient,
        { repoCalls := [.getRecipientByID 1, .updateRecipient testRecipient],
          published := [], logs := [] })) :=
  ⟨by decide, updateRecipient_empty_payload_noop "1" 1 testRecipient (by decide)⟩

/-- Claim C4 counterexample: the identifier "-1" is not a positive integer,
yet GetRecipient parses it, makes a repository call with id -1, and does not
answer with the invalid-identifier response; the claim that every
non-positive identifier yields InvalidIdentifier with no repository call is
therefore false of the code, which accepts any signed 64-bit integer. -/
theorem invalid_identifier_negative_id_counterexample :
    ParseInt64 "-1" = some (-1) ∧
    (Handlers.GetRecipient repoGetFoundTest "-1").2.repoCalls =
      [.getRecipientByID (-1)] ∧
    (Handlers.GetRecipient repoGetFoundTest "-1").1 ≠
      .badRequest "Invalid ID format" := by
  refine ⟨by decide, by decide, by decide⟩

/-- Claim C4 (amended): an identifier that does not parse as a signed 64-bit
decimal integer (non-numeric, containing invalid characters, or out of
range) yields the invalid-identifier response from every read, update and
delete operation, with no repository call made. -/
theorem invalid_identifier_rejected_before_repo
    (idStr : String) (hbad : ParseInt64 idStr = none)
    (repoGetMsg : Int → GetMessageResult)
    (repoGetRec : Int → GetRecipientResult)
    (repoUpdate : Recipient → UpdateResult)
    (repoDelete : Int → DeleteResult)
    (req : RecipientUpdate) :
    Handlers.GetContactMessage repoGetMsg idStr =
      (.badRequest "Invalid ID format", Effects.empty) ∧
    Handlers.GetRecipient repoGetRec idStr =
      (.badRequest "Invalid ID format", Effects.empty) ∧
    Handlers.UpdateRecipient repoGetRec repoUpdate idStr req =
      (.badRequest "Invalid ID format", Effects.empty) ∧
    Handlers.DeleteRecipient repoDelete idStr =
      (.badRequest "Invalid ID format", Effects.empty) := by
  refine ⟨?_, ?_, ?_, ?_⟩ <;>
    simp [Handlers.GetContactMessage, Handlers.GetRecipient,
      Handlers.UpdateRecipient, Handlers.DeleteRecipient, hbad]

/-- Witness for the amended C4 at the non-numeric identifier "abc". -/
theorem invalid_identifier_rejected_before_repo_witness :
    ParseInt64 "abc" = none ∧
    (Handlers.GetContactMessage repoGetMessageFound "abc" =
      (.badRequest "Invalid ID format", Effects.empty) ∧
    Handlers.GetRecipient repoGetFoundTest "abc" =
      (.badRequest "Invalid ID format", Effects.empty) ∧
    Handlers.UpdateRecipient repoGetFoundTest repoUpdateOk "abc"
      { email := none, name := none, isActive := none } =
      (.badRequest "Invalid ID format", Effects.empty) ∧
    Handlers.DeleteRecipient repoDeleteOk "abc" =
      (.badRequest "Invalid ID format", Effects.empty)) :=
  ⟨by decide,
    invalid_identifier_rejected_before_repo "abc" (by decide)
      repoGetMessageFound repoGetFoundTest repoUpdateOk repoDeleteOk
      { email := none, name := none, isActive := none }⟩

/-- Claim C5 counterexample: an update of recipient 1 whose payload fails
validation (a present but empty email) still causes a repository call — the
handler fetches the existing record before binding and validating the
payload — so the claim that validation errors are returned before any
repository call is false of the code. -/
theorem updateRecipient_validation_after_fetch_counterexample :
    validateRecipientUpdate invalidEmailUpdate = false ∧
    (Handlers.UpdateRecipient repoGetFoundTest repoUpdateOk "1"
      invalidEmailUpdate).1 = .badRequest "validation failed" ∧
    (Handlers.UpdateRecipient repoGetFoundTest repoUpdateOk "1"
      invalidEmailUpdate).2.repoCalls = [.getRecipientByID 1] := by
  refine ⟨by decide, by decide, by decide⟩

/-- Claim C5 (amended): a payload failing validation never reaches a
repository write: the create operations reject it before any repository
call, and UpdateRecipient — which fetches the existing record before
validating the payload — rejects it after that single repository read, with
no update call made. -/
theorem validation_rejected_before_repo_write :
    (∀ (repoCreate : ContactMessage → CreateResult)
       (publish : ContactMessageEvent → PublishResult)
       (req : ContactMessageCreate),
      validateContactMessageCreate req = false →
      Handlers.CreateContactMessage repoCreate publish req =
        (.badRequest, Effects.empty)) ∧
    (∀ (repoCreate : Recipient → CreateResult) (req : RecipientCreate),
      validateRecipientCreate req = false →
      Handlers.CreateRecipient repoCreate req =
        (.badRequest "validation failed", Effects.empty)) ∧
    (∀ (repoGet : Int → GetRecipientResult)
       (repoUpdate : Recipient → UpdateResult)
       (idStr : String) (id : Int) (existing : Recipient)
       (req : RecipientUpdate),
      ParseInt64 idStr = some id → repoGet id = .found existing →
      validateRecipientUpdate req = false →
      Handlers.UpdateRecipient repoGet repoUpdate idStr req =
        (.badRequest "validation failed",
          { repoCalls := [.getRecipientByID id], published := [], logs := [] })) := by
  refine ⟨?_, ?_, ?_⟩
  · intro repoCreate publish req h
    simp [Handlers.CreateContactMessage, h]
  · intro repoCreate req h
    simp [Handlers.CreateRecipient, h]
  · intro repoGet repoUpdate idStr id existing req hid hfound h
    simp [Handlers.UpdateRecipient, hid, hfound, h]

/-- Witness for the amended C5: an invalid contact payload (empty name), an
invalid recipient-create payload (malformed email), and the empty-email
partial update against recipient 1. -/
theorem validation_rejected_before_repo_write_witness :
    validateContactMessageCreate
      { name := "", email := "john@example.com", subject := "Test",
        message := "Hello world", website := none } = false ∧
    validateRecipientCreate
      { email := "not-an-email", name := "New Recipient", isActive := none } =
      false ∧
    ParseInt64 "1" = some 1 ∧
    repoGetFoundTest 1 = .found testRecipient ∧
    validateRecipientUpdate invalidEmailUpdate = false ∧
    (Handlers.CreateContactMessage repoCreateOk1 pubOk
      { name := "", email := "john@example.com", subject := "Test",
        message := "Hello world", website := none } =
      (.badRequest, Effects.empty) ∧
    Handlers.CreateRecipient recipientCreateOk1
      { email := "not-an-email", name := "New Recipient", isActive := none } =
      (.badRequest "validation failed", Effects.empty) ∧
    Handlers.UpdateRecipient repoGetFoundTest repoUpdateOk "1"
      invalidEmailUpdate =
      (.badRequest "validation failed",
        { repoCalls := [.getRecipientByID 1], published := [], logs := [] })) :=
  ⟨by decide, by decide, by decide, by decide, by decide,
    validation_rejected_before_repo_write.1 repoCreateOk1 pubOk
      { name := "", email := "john@example.com", subject := "Test",
        message := "Hello world", website := none } (by decide),
    validation_rejected_before_repo_write.2.1 recipientCreateOk1
      { email := "not-an-email", name := "New Recipient", isActive := none }
      (by decide),
    validation_rejected_before_repo_write.2.2 repoGetFoundTest repoUpdateOk
      "1" 1 testRecipient invalidEmailUpdate (by decide) (by decide)
      (by decide)⟩

/-- Claim C7: with a valid email and the honeypot absent, field-length
boundaries are inclusive: a name of exactly 255 characters (subject 500,
message 10000, the other fields in bounds) is accepted and reaches the
repository, while a name of 256 characters (subject 501, message 10001) is
rejected as a validation error before any repository call. -/
theorem contact_length_boundaries
    (em : String) (hem : validEmail em = true) :
    (∀ (n s b : String) (cid : Int)
        (publish : ContactMessageEvent → PublishResult),
      n.length = 255 → 1 ≤ s.length → s.length ≤ 500 →
      1 ≤ b.length → b.length ≤ 10000 →
      (Handlers.CreateContactMessage (fun _ => .ok cid) publish
        { name := n, email := em, subject := s, message := b,
          website := none }).1 = .created thankYouMessage ∧
      (Handlers.CreateContactMessage (fun _ => .ok cid) publish
        { name := n, email := em, subject := s, message := b,
          website := none }).2.repoCalls.length = 1) ∧
    (∀ (n s b : String) (repoCreate : ContactMessage → CreateResult)
        (publish : ContactMessageEvent → PublishResult),
      n.length = 256 →
      Handlers.CreateContactMessage repoCreate publish
        { name := n, email := em, subject := s, message := b,
          website := none } = (.badRequest, Effects.empty)) ∧
    (∀ (n s b : String) (cid : Int)
        (publish : ContactMessageEvent → PublishResult),
      1 ≤ n.length → n.length ≤ 255 → s.length = 500 →
      1 ≤ b.length → b.length ≤ 10000 →
      (Handlers.CreateContactMessage (fun _ => .ok cid) publish
        { name := n, email := em, subject := s, message := b,
          website := none }).1 = .created thankYouMessage ∧
      (Handlers.CreateContactMessage (fun _ => .ok cid) publish
        { name := n, email := em, subject := s, message := b,
          website := none }).2.repoCalls.length = 1) ∧
    (∀ (n s b : String) (repoCreate : ContactMessage → CreateResult)
        (publish : ContactMessageEvent → PublishResult),
      s.length = 501 →
      Handlers.CreateContactMessage repoCreate publish
        { name := n, email := em, subject := s, message := b,
          website := none } = (.badRequest, Effects.empty)) ∧
    (∀ (n s b : String) (cid : Int)
        (publish : ContactMessageEvent → PublishResult),
      1 ≤ n.length → n.length ≤ 255 → 1 ≤ s.length → s.length ≤ 500 →
      b.length = 10000 →
      (Handlers.CreateContactMessage (fun _ => .ok cid) publish
        { name := n, email := em, subject := s, message := b,
          website := none }).1 = .created thankYouMessage ∧
      (Handlers.CreateContactMessage (fun _ => .ok cid) publish
        { name := n, email := em, subject := s, message := b,
          website := none }).2.repoCalls.length = 1) ∧
    (∀ (n s b : String) (repoCreate : ContactMessage → CreateResult)
        (publish : ContactMessageEvent → PublishResult),
      b.length = 10001 →
      Handlers.CreateContactMessage repoCreate publish
        { name := n, email := em, subject := s, message := b,
          website := none } = (.badRequest, Effects.empty)) := by
  refine ⟨?_, ?_, ?_, ?_, ?_, ?_⟩
  · intro n s b cid publish h1 h2 h3 h4 h5
    have hval : validateContactMessageCreate
        { name := n, email := em, subject := s, message := b,
          website := none } = true := by
      simp [validateContactMessageCreate, hem, h1]
      omega
    refine ⟨?_, ?_⟩ <;>
      simp [Handlers.CreateContactMessage, hval, ContactMessageCreate.IsSpam]
  · intro n s b repoCreate publish h1
    have hval : validateContactMessageCreate
        { name := n, email := em, subject := s, message := b,
          website := none } = false := by
      rw [← Bool.not_eq_true]
      simp [validateContactMessageCreate, hem, h1]
    simp [Handlers.CreateContactMessage, hval]
  · intro n s b cid publish h1 h2 h3 h4 h5
    have hval : validateContactMessageCreate
        { name := n, email := em, subject := s, message := b,
          website := none } = true := by
      simp [validateContactMessageCreate, hem, h3]
      omega
    refine ⟨?_, ?_⟩ <;>
      simp [Handlers.CreateContactMessage, hval, ContactMessageCreate.IsSpam]
  · intro n s b repoCreate publish h1
    have hval : validateContactMessageCreate
        { name := n, email := em, subject := s, message := b,
          website := none } = false := by
      rw [← Bool.not_eq_true]
      simp [validateContactMessageCreate, hem, h1]
    simp [Handlers.CreateContactMessage, hval]
  · intro n s b cid publish h1 h2 h3 h4 h5
    have hval : validateContactMessageCreate
        { name := n, email := em, subject := s, message := b,
          website := none } = true := by
      simp [validateContactMessageCreate, hem, h5]
      omega
    refine ⟨?_, ?_⟩ <;>
      simp [Handlers.CreateContactMessage, hval, ContactMessageCreate.IsSpam]
  · intro n s b repoCreate publish h1
    have hval : validateContactMessageCreate
        { name := n, email := em, subject := s, message := b,
          website := none } = false := by
      rw [← Bool.not_eq_true]
      simp [validateContactMessageCreate, hem, h1]
    simp [Handlers.CreateContactMessage, hval]

/-- Witness for C7 at concrete boundary inputs: 255 versus 256 a-characters
as the name (the other fields valid and in bounds). -/
theorem contact_length_boundaries_witness :
    validEmail "john@example.com" = true ∧
    (aChars 255).length = 255 ∧
    (aChars 256).length = 256 ∧
    ((Handlers.CreateContactMessage (fun _ => .ok 1) pubOk
      { name := aChars 255, email := "john@example.com", subject := "Test",
        message := "Hello world", website := none }).1 =
      .created thankYouMessage ∧
    (Handlers.CreateContactMessage (fun _ => .ok 1) pubOk
      { name := aChars 255, email := "john@example.com", subject := "Test",
        message := "Hello world", website := none }).2.repoCalls.length = 1) ∧
    Handlers.CreateContactMessage repoCreateOk1 pubOk
      { name := aChars 256, email := "john@example.com", subject := "Test",
        message := "Hello world", website := none } =
      (.badRequest, Effects.empty) :=
  ⟨by decide, aChars_length 255, aChars_length 256,
    (contact_length_boundaries "john@example.com" (by decide)).1
      (aChars 255) "Test" "Hello world" 1 pubOk (aChars_length 255)
      (by decide) (by decide) (by decide) (by decide),
    (contact_length_boundaries "john@example.com" (by decide)).2.1
      (aChars 256) "Test" "Hello world" repoCreateOk1 pubOk
      (aChars_length 256)⟩

/-- Claim C8: the status-update repository operation increments the attempt
counter exactly when the new status is failed, assigns the sent timestamp
exactly when the new status is sent, and no single transition can do both
since the two statuses differ. -/
theorem updateStatus_attempts_and_sentAt
    (m : ContactMessage) (now : Nat) (status : String)
    (lastError : Option String) :
    ((Repo.UpdateContactMessageStatus m now status lastError).attempts =
        m.attempts + 1 ↔ status = MessageStatusFailed) ∧
    ((Repo.UpdateContactMessageStatus m now status lastError).attempts =
        m.attempts ↔ status ≠ MessageStatusFailed) ∧
    ((Repo.UpdateContactMessageStatus m now status lastError).sentAt =
      if status = MessageStatusSent then some now else m.sentAt) ∧
    ¬(status = MessageStatusFailed ∧ status = MessageStatusSent) := by
  have hne : MessageStatusFailed ≠ MessageStatusSent := by decide
  by_cases hf : status = MessageStatusFailed <;>
    by_cases hs : status = MessageStatusSent
  · exact absurd (hf ▸ hs) hne
  · subst hf
    rcases lastError with _ | e <;>
      simp [Repo.UpdateContactMessageStatus, hs]
  · subst hs
    rcases lastError with _ | e <;>
      simp [Repo.UpdateContactMessageStatus, hf]
  · rcases lastError with _ | e <;>
      simp [Repo.UpdateContactMessageStatus, hf, hs]

/-- Claim C10: the recipient listing returns a permutation of every stored
recipient, sorted by name in ascending order. -/
theorem getAllRecipients_sorted_by_name (db : List Recipient) :
    List.Perm (Repo.GetAllRecipients db) db ∧
    List.Sorted Repo.nameLe (Repo.GetAllRecipients db) :=
  ⟨List.perm_insertionSort Repo.nameLe db,
    List.sorted_insertionSort Repo.nameLe db⟩

end MessagingApi
